import Mathlib

/-!
# Verification of the rust-dmx port abstraction

Shallow embedding of the rust-dmx library (src/src/lib.rs) and of its two
concrete port implementations.  The crate root declares `mod enttec;` and
`mod offline;`, but those two module files are absent from the source tree,
so the two concrete implementations are modelled from the specification
(each such definition is marked `Modelled from the spec:`); the error type
and the aggregation function `available_ports` are translated directly from
src/src/lib.rs.

Rust conventions in the embedding: `&mut self` methods become state-passing
functions returning the updated value; `Result<T, Error>` becomes
`Except Error T`; byte values are `Nat` (each channel value fits in a byte,
but no claim depends on the bound so no mod-256 is applied to channel data;
the two length-field bytes are reduced mod 256 explicitly).
-/

namespace RustDmx

/-- The error enum of src/src/lib.rs (lines 88-93): `Serial(SerialError)`,
`IO(std::io::Error)` (spelled `Io` here), `PortClosed`.  The payloads of the
first two variants are opaque to this library, so they are `Nat` codes. -/
inductive Error where
  | Serial (e : Nat)
  | Io (e : Nat)
  | PortClosed
deriving DecidableEq, Repr

/-- `impl From<SerialError> for Error` (src/src/lib.rs lines 95-99). -/
def Error.fromSerial (e : Nat) : Error := Error.Serial e

/-- `impl From<std::io::Error> for Error` (src/src/lib.rs lines 101-105). -/
def Error.fromIo (e : Nat) : Error := Error.Io e

/-- The size-normalization rule of `DmxPort::write` (trait doc comment,
src/src/lib.rs lines 34-37): a frame smaller than the minimum universe size
is padded with zeros; values beyond the maximum universe size are ignored. -/
def normalizeFrame (minSize maxSize : Nat) (frame : List Nat) : List Nat :=
  let truncated := frame.take maxSize
  truncated ++ List.replicate (minSize - truncated.length) 0

/-- Modelled from the spec: the offline port (module `offline` is missing
from src/).  Its state is only whether it has been opened; it owns no
transport resource and performs no I/O. -/
structure OfflineDmxPort where
  isOpen : Bool
deriving DecidableEq, Repr

/-- Modelled from the spec: `OfflineDmxPort::available_ports` yields exactly
one synthetic instance, in the initial `Closed` state. -/
def OfflineDmxPort.available_ports : Except Error (List OfflineDmxPort) :=
  Except.ok [⟨false⟩]

/-- Modelled from the spec: the offline port's fixed, recognizable identity. -/
def OfflineDmxPort.name (_ : OfflineDmxPort) : String := "offline"

/-- Modelled from the spec: `OfflineDmxPort::open` always succeeds and is a
no-op when already open. -/
def OfflineDmxPort.open (_ : OfflineDmxPort) : Except Error OfflineDmxPort :=
  Except.ok ⟨true⟩

/-- Modelled from the spec: `OfflineDmxPort::close` transitions any state to
`Closed` and cannot fail. -/
def OfflineDmxPort.close (_ : OfflineDmxPort) : OfflineDmxPort := ⟨false⟩

/-- Modelled from the spec: `OfflineDmxPort::write` fails with `PortClosed`
before `open` and otherwise succeeds without any I/O. -/
def OfflineDmxPort.write (p : OfflineDmxPort) (_frame : List Nat) :
    Except Error OfflineDmxPort :=
  if p.isOpen then Except.ok p else Except.error Error.PortClosed

/-- Modelled from the spec: the serial connection owned by an open hardware
port.  The bytes handed to the serial layer are recorded as a list of
transmitted messages (normal, non-faulting transport behavior). -/
structure SerialConn where
  written : List (List Nat)
deriving DecidableEq, Repr

/-- Modelled from the spec: the fixed constants of the hardware adapter's
protocol (module `enttec` is missing from src/): the one-byte start and end
markers, the one-byte "output DMX frame" message label, and the transport's
minimum and maximum universe sizes.  The spec fixes none of their values, so
they are fields rather than literals. -/
structure EnttecProtocol where
  startMarker : Nat
  label : Nat
  endMarker : Nat
  minUniverseSize : Nat
  maxUniverseSize : Nat
deriving DecidableEq, Repr

/-- Modelled from the spec: the hardware adapter's message framing — start
marker, message label, two-byte little-endian length field holding the
payload byte count, the payload, and the end marker. -/
def EnttecProtocol.encode (proto : EnttecProtocol) (payload : List Nat) :
    List Nat :=
  [proto.startMarker, proto.label,
   payload.length % 256, payload.length / 256 % 256] ++
  payload ++ [proto.endMarker]

/-- Modelled from the spec: the hardware port (module `enttec` is missing
from src/).  It carries the serial device path as its identity and owns a
serial connection exactly while open. -/
structure EnttecDmxPort where
  portName : String
  conn : Option SerialConn
deriving DecidableEq, Repr

/-- Modelled from the spec: `EnttecDmxPort::available_ports` enumerates and
filters the serial devices exposed by the host, wrapping each device path
into a `Closed` port instance without opening anything.  The OS enumeration
outcome (an error, or the filtered device paths) is a parameter. -/
def EnttecDmxPort.available_ports (osDevices : Except Error (List String)) :
    Except Error (List EnttecDmxPort) :=
  match osDevices with
  | Except.error e => Except.error e
  | Except.ok names => Except.ok (names.map fun n => ⟨n, none⟩)

/-- Modelled from the spec: the hardware port's identity is its device path. -/
def EnttecDmxPort.name (p : EnttecDmxPort) : String := p.portName

/-- Modelled from the spec: `EnttecDmxPort::open` establishes the serial
connection when closed and is a no-op (acquiring no second handle) when the
connection already exists. -/
def EnttecDmxPort.open (p : EnttecDmxPort) : Except Error EnttecDmxPort :=
  match p.conn with
  | some _ => Except.ok p
  | none => Except.ok { p with conn := some ⟨[]⟩ }

/-- Modelled from the spec: `EnttecDmxPort::close` releases the serial
connection, transitions any state to `Closed`, and cannot fail. -/
def EnttecDmxPort.close (p : EnttecDmxPort) : EnttecDmxPort :=
  { p with conn := none }

/-- Modelled from the spec: `EnttecDmxPort::write` fails with `PortClosed`
when no serial connection is held; otherwise it pads/truncates the frame per
the trait contract, encodes it in the adapter's framing, and hands the
complete byte sequence to the serial layer in one transmission. -/
def EnttecDmxPort.write (proto : EnttecProtocol) (p : EnttecDmxPort)
    (frame : List Nat) : Except Error EnttecDmxPort :=
  match p.conn with
  | none => Except.error Error.PortClosed
  | some c =>
      let payload :=
        normalizeFrame proto.minUniverseSize proto.maxUniverseSize frame
      Except.ok
        { p with conn := some ⟨c.written ++ [proto.encode payload]⟩ }

/-- Modelled from the spec: serializing a port persists its identity only
(the kind tag and, for hardware, the device path); the live serial handle is
never part of the serialized form. -/
def EnttecDmxPort.serialize (p : EnttecDmxPort) : String := p.portName

/-- Modelled from the spec: reconstructing a hardware port from its
serialized identity yields a `Closed`-state instance. -/
def EnttecDmxPort.deserialize (s : String) : EnttecDmxPort := ⟨s, none⟩

/-- Modelled from the spec: the offline port serializes to its kind tag
alone (it has no identity data beyond its fixed label). -/
def OfflineDmxPort.serialize (_ : OfflineDmxPort) : Unit := ()

/-- Modelled from the spec: reconstructing an offline port yields a
`Closed`-state instance. -/
def OfflineDmxPort.deserialize (_ : Unit) : OfflineDmxPort := ⟨false⟩

/-- A port in the aggregate listing: the trait object `Box<dyn DmxPort>`
(src/src/lib.rs line 42), tagged by concrete kind. -/
inductive DynPort where
  | offline (p : OfflineDmxPort)
  | enttec (p : EnttecDmxPort)
deriving DecidableEq, Repr

/-- `DynPort.name`: dynamic dispatch of `name` over the two kinds. -/
def DynPort.name : DynPort → String
  | DynPort.offline p => p.name
  | DynPort.enttec p => p.name

/-- Whether a listing entry is the offline kind. -/
def DynPort.isOffline : DynPort → Bool
  | DynPort.offline _ => true
  | DynPort.enttec _ => false

/-- The free function `available_ports` (src/src/lib.rs lines 46-51):
extend with `OfflineDmxPort::available_ports()?`, then with
`EnttecDmxPort::available_ports()?`, and return the combined listing.
The host's serial-enumeration outcome feeds the Enttec kind's listing. -/
def available_ports (osDevices : Except Error (List String)) :
    Except Error (List DynPort) :=
  match OfflineDmxPort.available_ports with
  | Except.error e => Except.error e
  | Except.ok offlinePorts =>
    match EnttecDmxPort.available_ports osDevices with
    | Except.error e => Except.error e
    | Except.ok enttecPorts =>
      Except.ok
        (offlinePorts.map DynPort.offline ++ enttecPorts.map DynPort.enttec)

/-- The normalization rule on a short frame: padding with trailing zeros up
to the minimum universe size. -/
theorem normalizeFrame_of_short (minSize maxSize : Nat) (frame : List Nat)
    (hshort : frame.length < minSize) (hle : minSize ≤ maxSize) :
    normalizeFrame minSize maxSize frame =
      frame ++ List.replicate (minSize - frame.length) 0 := by
  have htake : frame.take maxSize = frame :=
    List.take_of_length_le (le_of_lt (lt_of_lt_of_le hshort hle))
  simp [normalizeFrame, htake]

/-- The normalization rule on a long frame: truncation to the maximum
universe size. -/
theorem normalizeFrame_of_long (minSize maxSize : Nat) (frame : List Nat)
    (hlong : maxSize < frame.length) (hle : minSize ≤ maxSize) :
    normalizeFrame minSize maxSize frame = frame.take maxSize := by
  have hlen : (frame.take maxSize).length = maxSize := by
    simp [List.length_take, Nat.min_eq_left (le_of_lt hlong)]
  simp [normalizeFrame, hlen, Nat.sub_eq_zero_of_le hle]

/-- C1: for each port implementation, writing a frame shorter than the
transport's minimum universe size to an Open port succeeds; for the hardware
port (the one implementation with a transmission) the transmitted payload is
the frame with trailing zeros appended up to the minimum length, and the
offline port records no transmission by construction. -/
theorem write_pads_short_frames
    (proto : EnttecProtocol) (path : String) (c : SerialConn)
    (q : OfflineDmxPort) (frame : List Nat)
    (hshort : frame.length < proto.minUniverseSize)
    (hle : proto.minUniverseSize ≤ proto.maxUniverseSize)
    (hopen : q.isOpen = true) :
    EnttecDmxPort.write proto ⟨path, some c⟩ frame =
      Except.ok ⟨path, some ⟨c.written ++
        [proto.encode (frame ++
          List.replicate (proto.minUniverseSize - frame.length) 0)]⟩⟩ ∧
    q.write frame = Except.ok q := by
  constructor
  · simp [EnttecDmxPort.write,
      normalizeFrame_of_short _ _ _ hshort hle]
  · simp [OfflineDmxPort.write, hopen]

/-- Witness for C1 at concrete inputs: a 2-channel frame on a transport with
minimum universe size 4 is padded with two zeros. -/
theorem write_pads_short_frames_witness :
    EnttecDmxPort.write ⟨126, 6, 231, 4, 512⟩ ⟨"p", some ⟨[]⟩⟩ [10, 20] =
      Except.ok ⟨"p", some ⟨[[126, 6, 4, 0, 10, 20, 0, 0, 231]]⟩⟩ ∧
    OfflineDmxPort.write ⟨true⟩ [10, 20] = Except.ok ⟨true⟩ := by
  have h := write_pads_short_frames ⟨126, 6, 231, 4, 512⟩ "p" ⟨[]⟩ ⟨true⟩
    [10, 20] (by decide) (by decide) rfl
  simpa [EnttecProtocol.encode, List.replicate] using h

/-- C2: for each port implementation, writing a frame longer than the
transport's maximum universe size to an Open port succeeds; the hardware
port's transmitted payload is exactly the first maximum-size channels (its
length is exactly the maximum, so no byte past the maximum is transmitted),
and the offline port records no transmission by construction. -/
theorem write_truncates_long_frames
    (proto : EnttecProtocol) (path : String) (c : SerialConn)
    (q : OfflineDmxPort) (frame : List Nat)
    (hlong : proto.maxUniverseSize < frame.length)
    (hle : proto.minUniverseSize ≤ proto.maxUniverseSize)
    (hopen : q.isOpen = true) :
    EnttecDmxPort.write proto ⟨path, some c⟩ frame =
      Except.ok ⟨path, some ⟨c.written ++
        [proto.encode (frame.take proto.maxUniverseSize)]⟩⟩ ∧
    (frame.take proto.maxUniverseSize).length = proto.maxUniverseSize ∧
    q.write frame = Except.ok q := by
  refine ⟨?_, ?_, ?_⟩
  · simp [EnttecDmxPort.write, normalizeFrame_of_long _ _ _ hlong hle]
  · simp [List.length_take, Nat.min_eq_left (le_of_lt hlong)]
  · simp [OfflineDmxPort.write, hopen]

/-- Witness for C2 at concrete inputs: a 4-channel frame on a transport with
maximum universe size 3 is truncated to its first 3 channels. -/
theorem write_truncates_long_frames_witness :
    EnttecDmxPort.write ⟨126, 6, 231, 1, 3⟩ ⟨"p", some ⟨[]⟩⟩
      [10, 20, 30, 40] =
      Except.ok ⟨"p", some ⟨[[126, 6, 3, 0, 10, 20, 30, 231]]⟩⟩ ∧
    OfflineDmxPort.write ⟨true⟩ [10, 20, 30, 40] = Except.ok ⟨true⟩ := by
  have h := write_truncates_long_frames ⟨126, 6, 231, 1, 3⟩ "p" ⟨[]⟩ ⟨true⟩
    [10, 20, 30, 40] (by decide) (by decide) rfl
  exact ⟨by simpa [EnttecProtocol.encode] using h.1, h.2.2⟩

/-- C3: for each port implementation, writing to a Closed port — one never
opened (no connection for the hardware port, the initial state for the
offline port) or one just closed — fails with `PortClosed`.  In the
state-passing embedding the error result carries no updated state, so the
port and transport are unchanged, and no message is handed to the serial
layer. -/
theorem write_closed_fails
    (proto : EnttecProtocol) (path : String)
    (p : EnttecDmxPort) (q : OfflineDmxPort) (frame : List Nat) :
    EnttecDmxPort.write proto ⟨path, none⟩ frame =
      Except.error Error.PortClosed ∧
    EnttecDmxPort.write proto p.close frame =
      Except.error Error.PortClosed ∧
    OfflineDmxPort.write ⟨false⟩ frame = Except.error Error.PortClosed ∧
    OfflineDmxPort.write q.close frame = Except.error Error.PortClosed := by
  refine ⟨rfl, ?_, rfl, rfl⟩
  simp [EnttecDmxPort.write, EnttecDmxPort.close]

/-- Witness for C3 at concrete inputs: both implementations reject a write
while closed, whether never opened or closed after opening. -/
theorem write_closed_fails_witness :
    EnttecDmxPort.write ⟨126, 6, 231, 1, 512⟩ ⟨"p", none⟩ [10] =
      Except.error Error.PortClosed ∧
    EnttecDmxPort.write ⟨126, 6, 231, 1, 512⟩
      (EnttecDmxPort.close ⟨"p", some ⟨[]⟩⟩) [10] =
      Except.error Error.PortClosed ∧
    OfflineDmxPort.write ⟨false⟩ [10] = Except.error Error.PortClosed ∧
    OfflineDmxPort.write (OfflineDmxPort.close ⟨true⟩) [10] =
      Except.error Error.PortClosed :=
  write_closed_fails ⟨126, 6, 231, 1, 512⟩ "p" ⟨"p", some ⟨[]⟩⟩ ⟨true⟩ [10]

/-- C4: `open` is idempotent for each implementation: on an already-Open
hardware port it succeeds and returns the very same state (in particular the
same connection handle, so no second resource is acquired), and on an
already-Open offline port it succeeds and leaves the state Open. -/
theorem open_idempotent
    (p : EnttecDmxPort) (c : SerialConn) (hp : p.conn = some c) :
    p.open = Except.ok p ∧
    (OfflineDmxPort.mk true).open = Except.ok ⟨true⟩ := by
  obtain ⟨n, co⟩ := p
  cases hp
  exact ⟨rfl, rfl⟩

/-- Witness for C4 at a concrete already-open hardware port. -/
theorem open_idempotent_witness :
    EnttecDmxPort.open ⟨"p", some ⟨[]⟩⟩ = Except.ok ⟨"p", some ⟨[]⟩⟩ ∧
    (OfflineDmxPort.mk true).open = Except.ok ⟨true⟩ :=
  open_idempotent ⟨"p", some ⟨[]⟩⟩ ⟨[]⟩ rfl

/-- C5: for each implementation and every starting state, `close` is a total
function (it can neither fail nor panic: its result type is the port itself,
not an error-carrying type) and the resulting state is Closed; the hardware
port keeps its identity. -/
theorem close_always_closes (p : EnttecDmxPort) (q : OfflineDmxPort) :
    p.close.conn = none ∧ p.close.portName = p.portName ∧
    q.close.isOpen = false :=
  ⟨rfl, rfl, rfl⟩

/-- Witness for C5 at concrete ports in the Open state. -/
theorem close_always_closes_witness :
    (EnttecDmxPort.close ⟨"p", some ⟨[]⟩⟩).conn = none ∧
    (EnttecDmxPort.close ⟨"p", some ⟨[]⟩⟩).portName = "p" ∧
    (OfflineDmxPort.close ⟨true⟩).isOpen = false :=
  close_always_closes ⟨"p", some ⟨[]⟩⟩ ⟨true⟩

/-- C6: when every kind's enumeration succeeds, the free function
`available_ports` succeeds with the concatenation of the per-kind listings
in registration order (Offline first, then Enttec); the aggregate length is
the sum of the individual listing lengths, and every Offline entry precedes
every Hardware entry in index order. -/
theorem available_ports_concat (names : List String)
    (offlinePorts : List OfflineDmxPort) (enttecPorts : List EnttecDmxPort)
    (ho : OfflineDmxPort.available_ports = Except.ok offlinePorts)
    (he : EnttecDmxPort.available_ports (Except.ok names) =
      Except.ok enttecPorts) :
    available_ports (Except.ok names) =
      Except.ok (offlinePorts.map DynPort.offline ++
                 enttecPorts.map DynPort.enttec) ∧
    ∀ l, available_ports (Except.ok names) = Except.ok l →
      l.length = offlinePorts.length + enttecPorts.length ∧
      ∀ i j : Fin l.length, (l.get i).isOffline = true →
        (l.get j).isOffline = false → (i : Nat) < (j : Nat) := by
  simp only [OfflineDmxPort.available_ports, Except.ok.injEq] at ho
  simp only [EnttecDmxPort.available_ports, Except.ok.injEq] at he
  subst ho
  subst he
  have hmain : available_ports (Except.ok names) =
      Except.ok (([(⟨false⟩ : OfflineDmxPort)].map DynPort.offline) ++
        ((names.map fun n => (⟨n, none⟩ : EnttecDmxPort)).map
          DynPort.enttec)) := rfl
  refine ⟨hmain, ?_⟩
  intro l hl
  rw [hmain, Except.ok.injEq] at hl
  subst hl
  constructor
  · simp only [List.length_append, List.length_map, List.length_cons,
      List.length_nil]
  · rintro ⟨iv, hi⟩ ⟨jv, hj⟩ htrue hfalse
    simp only [List.get_eq_getElem, List.map_cons, List.map_nil,
      List.map_map, List.cons_append, List.nil_append] at htrue hfalse
    cases jv with
    | zero =>
        simp [DynPort.isOffline] at hfalse
    | succ jv' =>
        cases iv with
        | zero => exact Nat.succ_pos _
        | succ iv' =>
            exfalso
            simp [DynPort.isOffline, Function.comp] at htrue

/-- Witness for C6: one offline instance plus two discovered devices give a
3-entry aggregate listing with the offline entry first. -/
theorem available_ports_concat_witness :
    available_ports (Except.ok ["a", "b"]) =
      Except.ok (([(⟨false⟩ : OfflineDmxPort)].map DynPort.offline) ++
        ([(⟨"a", none⟩ : EnttecDmxPort), ⟨"b", none⟩].map DynPort.enttec)) ∧
    ∀ l, available_ports (Except.ok ["a", "b"]) = Except.ok l →
      l.length = 1 + 2 ∧
      ∀ i j : Fin l.length, (l.get i).isOffline = true →
        (l.get j).isOffline = false → (i : Nat) < (j : Nat) :=
  available_ports_concat ["a", "b"] [⟨false⟩] [⟨"a", none⟩, ⟨"b", none⟩]
    rfl rfl

/-- C7: if a kind's enumeration fails (in this model the Offline kind's
enumeration cannot fail, so the failing kind is the Enttec kind, whose
serial enumeration outcome is the parameter), the aggregate `available_ports`
fails with that same error and yields no partial listing. -/
theorem available_ports_all_or_nothing (err : Error) :
    EnttecDmxPort.available_ports (Except.error err) = Except.error err ∧
    available_ports (Except.error err) = Except.error err ∧
    ∀ l, available_ports (Except.error err) ≠ Except.ok l := by
  refine ⟨rfl, rfl, ?_⟩
  intro l h
  rw [show available_ports (Except.error err) = Except.error err from rfl]
    at h
  exact Except.noConfusion h

/-- Witness for C7 at a concrete serial enumeration error. -/
theorem available_ports_all_or_nothing_witness :
    available_ports (Except.error (Error.Serial 0)) =
      Except.error (Error.Serial 0) ∧
    available_ports (Except.error (Error.Serial 0)) ≠ Except.ok [] :=
  ⟨(available_ports_all_or_nothing (Error.Serial 0)).2.1,
   (available_ports_all_or_nothing (Error.Serial 0)).2.2 []⟩

/-- C8: for each implementation and every state, serializing a port and
reconstructing it preserves the identity string returned by `name`, and the
reconstructed instance is in the Closed state. -/
theorem serialize_roundtrip (p : EnttecDmxPort) (q : OfflineDmxPort) :
    (EnttecDmxPort.deserialize p.serialize).name = p.name ∧
    (EnttecDmxPort.deserialize p.serialize).conn = none ∧
    (OfflineDmxPort.deserialize q.serialize).name = q.name ∧
    (OfflineDmxPort.deserialize q.serialize).isOpen = false :=
  ⟨rfl, rfl, rfl, rfl⟩

/-- Witness for C8: a round trip through serialization at concrete ports in
the Open state. -/
theorem serialize_roundtrip_witness :
    (EnttecDmxPort.deserialize
      (EnttecDmxPort.serialize ⟨"p", some ⟨[]⟩⟩)).name = "p" ∧
    (EnttecDmxPort.deserialize
      (EnttecDmxPort.serialize ⟨"p", some ⟨[]⟩⟩)).conn = none ∧
    (OfflineDmxPort.deserialize
      (OfflineDmxPort.serialize ⟨true⟩)).name = "offline" ∧
    (OfflineDmxPort.deserialize
      (OfflineDmxPort.serialize ⟨true⟩)).isOpen = false :=
  serialize_roundtrip ⟨"p", some ⟨[]⟩⟩ ⟨true⟩

/-- C9: the hardware port's `write` on an Open port transmits exactly one
byte sequence: start marker, message label, the two little-endian bytes of
the post-pad/truncate payload length, the payload in channel order, and the
end marker; the two length bytes decode to the payload byte count whenever
it fits in 16 bits; and on the 3-channel frame `[10, 20, 30]` with minimum
universe size 1 and maximum 512 (no truncation) the length field is 3 and
the payload is exactly those three bytes in order. -/
theorem enttec_write_framing
    (proto : EnttecProtocol) (path : String) (c : SerialConn)
    (frame : List Nat) :
    EnttecDmxPort.write proto ⟨path, some c⟩ frame =
      Except.ok ⟨path, some ⟨c.written ++
        [[proto.startMarker, proto.label,
          (normalizeFrame proto.minUniverseSize proto.maxUniverseSize
            frame).length % 256,
          (normalizeFrame proto.minUniverseSize proto.maxUniverseSize
            frame).length / 256 % 256] ++
         normalizeFrame proto.minUniverseSize proto.maxUniverseSize frame ++
         [proto.endMarker]]⟩⟩ ∧
    ((normalizeFrame proto.minUniverseSize proto.maxUniverseSize
        frame).length < 65536 →
      (normalizeFrame proto.minUniverseSize proto.maxUniverseSize
        frame).length % 256 +
        256 * ((normalizeFrame proto.minUniverseSize proto.maxUniverseSize
          frame).length / 256 % 256) =
        (normalizeFrame proto.minUniverseSize proto.maxUniverseSize
          frame).length) ∧
    EnttecDmxPort.write ⟨proto.startMarker, proto.label, proto.endMarker,
        1, 512⟩ ⟨path, some ⟨[]⟩⟩ [10, 20, 30] =
      Except.ok ⟨path, some ⟨[[proto.startMarker, proto.label, 3, 0,
        10, 20, 30, proto.endMarker]]⟩⟩ := by
  refine ⟨rfl, ?_, ?_⟩
  · intro h
    omega
  · simp [EnttecDmxPort.write, EnttecProtocol.encode, normalizeFrame]

/-- Witness for C9 with concrete marker bytes: the transmitted message and
the decoded length field for the frame `[10, 20, 30]`. -/
theorem enttec_write_framing_witness :
    EnttecDmxPort.write ⟨126, 6, 231, 1, 512⟩ ⟨"p", some ⟨[]⟩⟩
      [10, 20, 30] =
      Except.ok ⟨"p", some ⟨[[126, 6, 3, 0, 10, 20, 30, 231]]⟩⟩ ∧
    (normalizeFrame 1 512 [10, 20, 30]).length % 256 +
      256 * ((normalizeFrame 1 512 [10, 20, 30]).length / 256 % 256) =
      (normalizeFrame 1 512 [10, 20, 30]).length := by
  have h := enttec_write_framing ⟨126, 6, 231, 1, 512⟩ "p" ⟨[]⟩ [10, 20, 30]
  exact ⟨h.2.2, h.2.1 (by decide)⟩

/-- C10: the conversion from an underlying serial-layer error yields the
`Serial` variant wrapping it, the conversion from a host I/O error yields
the `Io` variant wrapping it, and neither conversion ever produces
`PortClosed`. -/
theorem error_conversions (es ei : Nat) :
    Error.fromSerial es = Error.Serial es ∧
    Error.fromIo ei = Error.Io ei ∧
    Error.fromSerial es ≠ Error.PortClosed ∧
    Error.fromIo ei ≠ Error.PortClosed :=
  ⟨rfl, rfl, fun h => Error.noConfusion h, fun h => Error.noConfusion h⟩

/-- Witness for C10 at concrete error codes. -/
theorem error_conversions_witness :
    Error.fromSerial 0 = Error.Serial 0 ∧
    Error.fromIo 1 = Error.Io 1 ∧
    Error.fromSerial 0 ≠ Error.PortClosed ∧
    Error.fromIo 1 ≠ Error.PortClosed :=
  error_conversions 0 1

end RustDmx
